import Mathlib

/-!
Verification of the cart/inventory reconciliation subsystem of the ADP-Website
backend (src/Backend/routes/cart.js, src/Backend/routes/inventory.js and the
mongoose models in src/Backend/models and the inventory model).

The document store is embedded shallowly: each mongoose collection becomes a
list of records, a document field that can be missing or null becomes an
`MField`, and each Express route handler becomes a function from a store state
and the (already type-checked) request parameters to a pair of an HTTP status
code and the successor state.  Sequencing of awaited store operations inside a
handler is modelled by threading the state left to right.
-/

/-- A mongoose document field: in a stored BSON document the field can be
missing (never written), explicitly `null`, or hold a value.  The distinction
matters because the query operator used in `add-custom-item`
(`item_id: { $exists: false }`) matches only documents where the field is
missing, while a stored `null` makes the field present. -/
inductive MField (α : Type) : Type where
  | absent : MField α
  | jsNull : MField α
  | val : α → MField α
deriving DecidableEq

/-- Mongo query `{ field: v }` for a concrete value `v`: matches only a stored
value equal to `v` (a missing or null field does not equal a string value). -/
def isVal : MField Nat → Nat → Bool
  | MField.val k, n => k == n
  | _, _ => false

/-- Mongo query `{ field: { $exists: false } }`: matches only documents where
the field is missing; a stored `null` is present and therefore not matched. -/
def isAbsent : MField Nat → Bool
  | MField.absent => true
  | _ => false

/-- The catalog reference of a line item, if it holds an actual id. -/
def refOf : MField Nat → Option Nat
  | MField.val k => some k
  | _ => none

/-- models/cartItem.js: the CartItem schema. -/
structure CartItemDoc : Type where
  _id : Nat
  cart : Nat
  item_id : MField Nat
  itemName : String
  ordered_quantity : Nat
  allotted_quantity : Nat
  status : String
  remarks : MField String
  link : MField String
deriving DecidableEq

/-- models/Cart.js: the Cart schema (one cart per user, list of item refs). -/
structure CartDoc : Type where
  _id : Nat
  userId : Nat
  cartItems : List Nat
deriving DecidableEq

/-- models/inventory.js: the Inventory schema. -/
structure InventoryDoc : Type where
  _id : Nat
  itemQuantity : Nat
  itemStatus : String
  itemName : String
  itemOrderedStatus : String
  itemRemark : MField String
deriving DecidableEq

/-- The whole document store, plus a counter supplying fresh object ids. -/
structure StoreState : Type where
  inventories : List InventoryDoc
  carts : List CartDoc
  cartItems : List CartItemDoc
  nextId : Nat
deriving DecidableEq

/-- models/cartItem.js line 9: the status enumeration of the stored schema. -/
def statusEnum : List String := ["Pending", "Ready", "Rejected", "Delivered", "Amazon"]

/-- routes/cart.js lines 284 and 453: the status values accepted by the
express-validator `isIn` check of the update endpoints. -/
def statusLower : List String := ["pending", "ready", "rejected", "delivered", "amazon"]

/-- Mongoose document validation run by `save()` on a CartItem: the status
must belong to the schema enum and the required `ordered_quantity` must meet
its `min: 1` constraint.  A failed validation rejects the save and the handler
answers 500. -/
def validCartItem (ci : CartItemDoc) : Bool :=
  statusEnum.contains ci.status && decide (1 ≤ ci.ordered_quantity)

/-- Mongoose save of an already stored CartItem: overwrite the document carrying
the same `_id`. -/
def replaceCartItem (l : List CartItemDoc) (ci : CartItemDoc) : List CartItemDoc :=
  l.map (fun x => if x._id = ci._id then ci else x)

/-- Mongoose save of a cart document: update the stored cart with the same `_id`, or insert the
document when it is new. -/
def saveCart (s : StoreState) (c : CartDoc) : StoreState :=
  if s.carts.any (fun x => x._id == c._id) then
    { s with carts := s.carts.map (fun x => if x._id = c._id then c else x) }
  else
    { s with carts := s.carts ++ [c] }

/-- One element of the request body of POST /add-items. -/
structure AddReq : Type where
  item_id : Nat
  ordered_quantity : Nat
deriving DecidableEq

/-- The per-item loop of POST /add-items (routes/cart.js lines 46-72):
resolve the inventory item (404 when absent), merge into an existing line
item of this cart for the same catalog id by accumulating the quantity, else
create a new line item and push its reference onto the in-memory cart.
Returns an error code when the loop aborted, the in-memory cart document and
the store state reached so far. -/
def addItemsGo : StoreState → CartDoc → List AddReq → Option Nat × CartDoc × StoreState
  | s, cart, [] => (none, cart, s)
  | s, cart, it :: rest =>
    match s.inventories.find? (fun inv => inv._id == it.item_id) with
    | none => (some 404, cart, s)
    | some inv =>
      match s.cartItems.find? (fun ci => ci.cart == cart._id && isVal ci.item_id it.item_id) with
      | some existing =>
        let upd := { existing with ordered_quantity := existing.ordered_quantity + it.ordered_quantity }
        if validCartItem upd then
          addItemsGo { s with cartItems := replaceCartItem s.cartItems upd } cart rest
        else (some 500, cart, s)
      | none =>
        let nc : CartItemDoc :=
          { _id := s.nextId, cart := cart._id, item_id := MField.val it.item_id,
            itemName := inv.itemName, ordered_quantity := it.ordered_quantity,
            allotted_quantity := 0, status := "Pending",
            remarks := MField.absent, link := MField.absent }
        if validCartItem nc then
          addItemsGo { s with cartItems := s.cartItems ++ [nc], nextId := s.nextId + 1 }
            { cart with cartItems := cart.cartItems ++ [nc._id] } rest
        else (some 500, cart, s)

/-- POST /add-items (routes/cart.js lines 20-80).  The express-validator
chain demands positive integer quantities; the handler fetches or lazily
creates the requester cart, runs the merge loop and saves the cart only when
every item resolved. -/
def addItems (s : StoreState) (userId : Nat) (items : List AddReq) : Nat × StoreState :=
  if !(items.all (fun it => decide (1 ≤ it.ordered_quantity))) then (400, s)
  else
    let found := s.carts.find? (fun c => c.userId == userId)
    let cart : CartDoc :=
      match found with
      | some c => c
      | none => { _id := s.nextId, userId := userId, cartItems := [] }
    let s0 : StoreState :=
      match found with
      | some _ => s
      | none => { s with nextId := s.nextId + 1 }
    match addItemsGo s0 cart items with
    | (some code, _, s1) => (code, s1)
    | (none, cart1, s1) => (200, saveCart s1 cart1)

/-- POST /add-custom-item (routes/cart.js lines 83-145).  The existing-item
lookup uses `item_id: { $exists: false }`, while a newly created custom item
stores `item_id: null`; both are modelled exactly. -/
def addCustomItem (s : StoreState) (userId : Nat) (itemName : String)
    (ordered_quantity : Nat) (link : Option String) : Nat × StoreState :=
  if !(decide (1 ≤ ordered_quantity)) then (400, s)
  else
    let found := s.carts.find? (fun c => c.userId == userId)
    let cart : CartDoc :=
      match found with
      | some c => c
      | none => { _id := s.nextId, userId := userId, cartItems := [] }
    let s0 : StoreState :=
      match found with
      | some _ => s
      | none => { s with nextId := s.nextId + 1 }
    match s0.cartItems.find? (fun ci =>
        (ci.cart == cart._id && ci.itemName == itemName) && isAbsent ci.item_id) with
    | some existing =>
      let e1 := { existing with ordered_quantity := existing.ordered_quantity + ordered_quantity }
      let e2 := match link with
        | some l => { e1 with link := MField.val l }
        | none => e1
      if validCartItem e2 then
        (200, saveCart { s0 with cartItems := replaceCartItem s0.cartItems e2 } cart)
      else (500, s0)
    | none =>
      let nc : CartItemDoc :=
        { _id := s0.nextId, cart := cart._id, item_id := MField.jsNull,
          itemName := itemName, ordered_quantity := ordered_quantity,
          allotted_quantity := 0, status := "Pending", remarks := MField.absent,
          link := match link with
            | some l => MField.val l
            | none => MField.absent }
      if validCartItem nc then
        (200, saveCart { s0 with cartItems := s0.cartItems ++ [nc], nextId := s0.nextId + 1 }
          { cart with cartItems := cart.cartItems ++ [nc._id] })
      else (500, s0)

/-- DELETE /remove-item/:cart/:itemName (routes/cart.js lines 173-222). -/
def removeItem (s : StoreState) (cartId : Nat) (itemName : String) : Nat × StoreState :=
  match s.carts.find? (fun c => c._id == cartId) with
  | none => (404, s)
  | some cartDoc =>
    match s.cartItems.find? (fun ci => ci.cart == cartDoc._id && ci.itemName == itemName) with
    | none => (404, s)
    | some cartItem =>
      let s1 := { s with cartItems := s.cartItems.filter (fun x => !(x._id == cartItem._id)) }
      let newRefs := cartDoc.cartItems.filter (fun r => !(r == cartItem._id))
      if newRefs.isEmpty then
        (200, { s1 with carts := s1.carts.filter (fun c => !(c._id == cartDoc._id)) })
      else
        (200, saveCart s1 { cartDoc with cartItems := newRefs })

/-- PUT /update-cart-item-status/:cartItemId (routes/cart.js lines 279-325).
The allotted quantity is accumulated, status and remarks are overwritten, and
the mutated document is saved (running schema validation). -/
def updateCartItemStatus (s : StoreState) (cartItemId : Nat)
    (allotted_quantity : Option Nat) (status : Option String) (remarks : Option String) :
    Nat × StoreState :=
  if !(match status with
      | some st => statusLower.contains st
      | none => true) then (400, s)
  else
    match s.cartItems.find? (fun ci => ci._id == cartItemId) with
    | none => (404, s)
    | some cartItem =>
      let c1 := match allotted_quantity with
        | some d => { cartItem with allotted_quantity := cartItem.allotted_quantity + d }
        | none => cartItem
      let c2 := match status with
        | some st => { c1 with status := st }
        | none => c1
      let c3 := match remarks with
        | some r => { c2 with remarks := MField.val r }
        | none => c2
      if validCartItem c3 then (200, { s with cartItems := replaceCartItem s.cartItems c3 })
      else (500, s)

/-- One element of the request body of PUT /update-multiple-cart-items. -/
structure UpdateReq : Type where
  _id : Nat
  allotted_quantity : Option Nat
  status : Option String
  remarks : Option String
deriving DecidableEq

/-- The custom express-validator check of PUT /update-multiple-cart-items:
each element carries at least one field to update. -/
def hasUpdateField (it : UpdateReq) : Bool :=
  it.allotted_quantity.isSome || it.status.isSome || it.remarks.isSome

/-- The in-memory mutation applied to a fetched cart item by the strict batch
endpoint: accumulate the allotted quantity, overwrite status and remarks. -/
def applyUpdate (ci : CartItemDoc) (it : UpdateReq) : CartItemDoc :=
  let c1 := match it.allotted_quantity with
    | some d => { ci with allotted_quantity := ci.allotted_quantity + d }
    | none => ci
  let c2 := match it.status with
    | some st => { c1 with status := st }
    | none => c1
  match it.remarks with
  | some r => { c2 with remarks := MField.val r }
  | none => c2

/-- The per-item work of PUT /update-multiple-cart-items (routes/cart.js
lines 348-373).  The handler launches one async update per element with
`items.map` and awaits them with `Promise.all`: a rejected promise (missing
id or failed save validation) does not cancel the other updates, which all
run to completion.  This is modelled by processing the whole list and
recording in the Bool whether any per-item promise rejected; the per-item
updates are threaded sequentially, which coincides with the concurrent
execution whenever the ids of a batch are pairwise distinct, because each
update touches only its own document. -/
def updateMultipleGo : StoreState → List UpdateReq → Bool × StoreState
  | s, [] => (false, s)
  | s, it :: rest =>
    match s.cartItems.find? (fun ci => ci._id == it._id) with
    | none =>
      let r := updateMultipleGo s rest
      (true, r.2)
    | some ci =>
      if validCartItem (applyUpdate ci it) then
        updateMultipleGo { s with cartItems := replaceCartItem s.cartItems (applyUpdate ci it) } rest
      else
        let r := updateMultipleGo s rest
        (true, r.2)

/-- PUT /update-multiple-cart-items (routes/cart.js lines 327-383): the
strict batch variant.  When any per-item promise rejected, the generic catch
answers 500 with the rejection message; otherwise 200. -/
def updateMultipleCartItems (s : StoreState) (items : List UpdateReq) : Nat × StoreState :=
  if items.all hasUpdateField then
    let r := updateMultipleGo s items
    (if r.1 then 500 else 200, r.2)
  else (400, s)

/-- One element of the request body of PUT /update-items-status. -/
structure StatusReq : Type where
  _id : Nat
  status : Option String
  remarks : Option String
deriving DecidableEq

/-- The in-memory mutation applied to a fetched cart item by the lenient
batch endpoint: overwrite status and remarks when supplied. -/
def applyStatusReq (ci : CartItemDoc) (it : StatusReq) : CartItemDoc :=
  let c1 := match it.status with
    | some st => { ci with status := st }
    | none => ci
  match it.remarks with
  | some r => { c1 with remarks := MField.val r }
  | none => c1

/-- The sequential per-item loop of PUT /update-items-status (routes/cart.js
lines 470-494).  A missing cart item answers 404 at once, aborting the rest
of the batch.  `cartItem.item_id.toString()` throws a TypeError when the
stored `item_id` is null or missing (custom items), which the generic catch
turns into a 500.  An item whose catalog reference is not among the inventory
ids is skipped silently; otherwise status and remarks are applied and the
document is saved (running schema validation, whose failure also lands in
the generic catch as a 500 that aborts the rest of the batch). -/
def updateItemsGo (invIds : List Nat) : StoreState → List StatusReq → Nat × StoreState
  | s, [] => (200, s)
  | s, it :: rest =>
    match s.cartItems.find? (fun ci => ci._id == it._id) with
    | none => (404, s)
    | some cartItem =>
      match cartItem.item_id with
      | MField.val k =>
        if invIds.contains k then
          if validCartItem (applyStatusReq cartItem it) then
            updateItemsGo invIds
              { s with cartItems := replaceCartItem s.cartItems (applyStatusReq cartItem it) } rest
          else (500, s)
        else updateItemsGo invIds s rest
      | _ => (500, s)

/-- PUT /update-items-status (routes/cart.js lines 448-501): the lenient
(catalog-filtered) batch variant.  The express-validator chain restricts each
supplied status to the lowercase list; the inventory id list is computed once
before the loop. -/
def updateItemsStatus (s : StoreState) (items : List StatusReq) : Nat × StoreState :=
  if items.all (fun it =>
      match it.status with
      | some st => statusLower.contains st
      | none => true) then
    updateItemsGo (s.inventories.map (fun inv => inv._id)) s items
  else (400, s)

/-- One group of the `cartItemsById` accumulator of GET /cart-item-summary
(routes/cart.js lines 394-409).  The constant empty-string status and remark
fields of the source accumulator are omitted: the emitted report reads those
fields from the inventory document instead. -/
structure GroupAcc : Type where
  key : Nat
  _id : Nat
  itemName : String
  totalOrderedQuantity : Nat
  totalAllottedQuantity : Nat
deriving DecidableEq

/-- The identity key of the reduce: the catalog id when `item_id` is truthy,
else the line item id itself (nulls and missing fields are falsy; stored ids
come from `isMongoId`-validated input, hence are never the empty string). -/
def itemKey (ci : CartItemDoc) : Nat :=
  match ci.item_id with
  | MField.val k => k
  | _ => ci._id

/-- Accumulate one cart item into the keyed object of the reduce: update the
entry carrying its key when present, else append a fresh zero-initialised
entry and accumulate into it. -/
def addToGroups : List GroupAcc → CartItemDoc → List GroupAcc
  | [], ci =>
    [{ key := itemKey ci, _id := ci._id, itemName := ci.itemName,
       totalOrderedQuantity := ci.ordered_quantity,
       totalAllottedQuantity := ci.allotted_quantity }]
  | g :: gs, ci =>
    if g.key == itemKey ci then
      { g with totalOrderedQuantity := g.totalOrderedQuantity + ci.ordered_quantity,
               totalAllottedQuantity := g.totalAllottedQuantity + ci.allotted_quantity } :: gs
    else g :: addToGroups gs ci

/-- Lookup of `cartItemsById[key].totalOrderedQuantity` with the
`|| { totalOrderedQuantity: 0 }` default. -/
def groupOrdered (gs : List GroupAcc) (k : Nat) : Nat :=
  match gs.find? (fun g => g.key == k) with
  | some g => g.totalOrderedQuantity
  | none => 0

/-- Lookup of `cartItemsById[key].totalAllottedQuantity` with the default. -/
def groupAllotted (gs : List GroupAcc) (k : Nat) : Nat :=
  match gs.find? (fun g => g.key == k) with
  | some g => g.totalAllottedQuantity
  | none => 0

/-- The JS or-else-empty-string default applied to a possibly missing string field. -/
def orEmpty : MField String → String
  | MField.val r => r
  | _ => ""

/-- One row of the catalog-joined summary response. -/
structure SummaryRow : Type where
  _id : Nat
  itemName : String
  availableQuantity : Nat
  totalOrderedQuantity : Nat
  totalAllottedQuantity : Nat
  itemOrderedStatus : String
  itemRemark : String
deriving DecidableEq

/-- GET /cart-item-summary (routes/cart.js lines 386-430): group all cart
items by identity key with a reduce, then emit one row per inventory item
joining its quantity with the sums of its group (zero when absent). -/
def cartItemSummary (s : StoreState) : List SummaryRow :=
  let gs := s.cartItems.foldl addToGroups []
  s.inventories.map (fun inv =>
    { _id := inv._id, itemName := inv.itemName, availableQuantity := inv.itemQuantity,
      totalOrderedQuantity := groupOrdered gs inv._id,
      totalAllottedQuantity := groupAllotted gs inv._id,
      itemOrderedStatus := orEmpty (MField.val inv.itemOrderedStatus),
      itemRemark := orEmpty inv.itemRemark })

/-- The HTTP reply of the inventory creation route, keeping the message so
that the structured duplicate-name conflict is distinguishable from the
generic internal error. -/
structure Resp : Type where
  status : Nat
  msg : String
deriving DecidableEq

/-- POST /inventory (routes/inventory.js lines 43-61).  The express-validator
chain checks the quantity and the status enum; `newInventory.save()` hits the
unique index on `itemName` (models/inventory.js), and the handler translates
the resulting duplicate-key error (code 11000) into a 400 conflict reply
instead of the generic 500. -/
def createInventory (s : StoreState) (itemQuantity : Nat) (itemStatus itemName : String) :
    Resp × StoreState :=
  if !(itemStatus == "enabled" || itemStatus == "disabled") then
    ({ status := 400, msg := "Invalid status" }, s)
  else if s.inventories.any (fun inv => inv.itemName == itemName) then
    ({ status := 400, msg := "Item name must be unique. This item already exists." }, s)
  else
    let ni : InventoryDoc :=
      { _id := s.nextId, itemQuantity := itemQuantity, itemStatus := itemStatus,
        itemName := itemName, itemOrderedStatus := "Available", itemRemark := MField.absent }
    ({ status := 201, msg := "" },
      { s with inventories := s.inventories ++ [ni], nextId := s.nextId + 1 })

/-- DELETE /inventory/:id (routes/inventory.js lines 84-106).  The handler
runs `findByIdAndDelete` and `CartItem.deleteMany({ item_id: id })` together;
both deletions happen even when the inventory item was absent, in which case
the reply is still 404. -/
def deleteInventory (s : StoreState) (id : Nat) : Nat × StoreState :=
  let found := s.inventories.find? (fun inv => inv._id == id)
  let s1 := { s with inventories := s.inventories.filter (fun inv => !(inv._id == id)),
                     cartItems := s.cartItems.filter (fun ci => !(isVal ci.item_id id)) }
  match found with
  | none => (404, s1)
  | some _ => (200, s1)

/-- Well-formedness of a store state: object ids are pairwise distinct inside
each collection, at most one cart per requester (the unique index on
`Cart.userId`), and the fresh-id counter dominates every id in use. -/
def WF (s : StoreState) : Prop :=
  (s.carts.map (fun c => c._id)).Nodup ∧
  (s.carts.map (fun c => c.userId)).Nodup ∧
  (s.cartItems.map (fun ci => ci._id)).Nodup ∧
  (∀ c ∈ s.carts, c._id < s.nextId) ∧
  (∀ ci ∈ s.cartItems, ci._id < s.nextId) ∧
  (∀ ci ∈ s.cartItems, ci.cart < s.nextId) ∧
  (∀ inv ∈ s.inventories, inv._id < s.nextId)

/-- The fresh line item built by the add-items loop for a resolved catalog
item: requested quantity as given, nothing allotted, Pending, display name
copied from the catalog item at add time. -/
def mkLineItem (newId cartId invId : Nat) (nm : String) (q : Nat) : CartItemDoc :=
  { _id := newId, cart := cartId, item_id := MField.val invId, itemName := nm,
    ordered_quantity := q, allotted_quantity := 0, status := "Pending",
    remarks := MField.absent, link := MField.absent }

/-! Concrete store states used to evaluate the endpoints on small inputs. -/

/-- A catalog item used by several concrete evaluations. -/
def ropeInv : InventoryDoc :=
  { _id := 1, itemQuantity := 9, itemStatus := "enabled", itemName := "Rope",
    itemOrderedStatus := "Available", itemRemark := MField.absent }

/-- An empty store whose catalog holds one item. -/
def oneInvState : StoreState :=
  { inventories := [ropeInv], carts := [], cartItems := [], nextId := 2 }

/-- An empty store. -/
def emptyState : StoreState :=
  { inventories := [], carts := [], cartItems := [], nextId := 1 }

/-- A line item of cart 1 referencing catalog item 1. -/
def ropeItem : CartItemDoc :=
  { _id := 10, cart := 1, item_id := MField.val 1, itemName := "Rope",
    ordered_quantity := 4, allotted_quantity := 0, status := "Pending",
    remarks := MField.absent, link := MField.absent }

/-- A store holding just `ropeItem`, for the single-item update endpoint. -/
def oneItemState : StoreState :=
  { inventories := [], carts := [], cartItems := [ropeItem], nextId := 11 }

/-- A line item whose catalog reference is dangling (catalog item 2 gone). -/
def ghostItem : CartItemDoc :=
  { _id := 11, cart := 1, item_id := MField.val 2, itemName := "Ghost",
    ordered_quantity := 1, allotted_quantity := 0, status := "Pending",
    remarks := MField.absent, link := MField.absent }

/-- A store with one catalog item, one live line item and one dangling one. -/
def mixedRefState : StoreState :=
  { inventories := [ropeInv], carts := [], cartItems := [ropeItem, ghostItem], nextId := 20 }

/-- A batch element whose id resolves to no stored line item. -/
def missingReq : UpdateReq :=
  { _id := 99, allotted_quantity := none, status := none, remarks := some "x" }

/-- A batch element whose id resolves to `ropeItem`. -/
def presentReq : UpdateReq :=
  { _id := 10, allotted_quantity := none, status := none, remarks := some "y" }

/-- Catalog item A of the summary evaluation (quantity 10). -/
def invA : InventoryDoc :=
  { _id := 1, itemQuantity := 10, itemStatus := "enabled", itemName := "A",
    itemOrderedStatus := "Available", itemRemark := MField.absent }

/-- The summary evaluation state: catalog item A requested 3 and 4 (allotted
1 and 2) from two carts, plus two custom items sharing the name X in two
different carts. -/
def summaryState : StoreState :=
  { inventories := [invA], carts := [],
    cartItems :=
      [{ _id := 10, cart := 1, item_id := MField.val 1, itemName := "A",
         ordered_quantity := 3, allotted_quantity := 1, status := "Pending",
         remarks := MField.absent, link := MField.absent },
       { _id := 11, cart := 2, item_id := MField.val 1, itemName := "A",
         ordered_quantity := 4, allotted_quantity := 2, status := "Pending",
         remarks := MField.absent, link := MField.absent },
       { _id := 12, cart := 1, item_id := MField.jsNull, itemName := "X",
         ordered_quantity := 5, allotted_quantity := 0, status := "Pending",
         remarks := MField.absent, link := MField.absent },
       { _id := 13, cart := 2, item_id := MField.jsNull, itemName := "X",
         ordered_quantity := 6, allotted_quantity := 0, status := "Pending",
         remarks := MField.absent, link := MField.absent }],
    nextId := 20 }

/-- The cart of the removal evaluation: two custom items named A and B. -/
def twoItemCart : CartDoc := { _id := 1, userId := 5, cartItems := [10, 11] }

/-- Line item A of the removal evaluation. -/
def itemA : CartItemDoc :=
  { _id := 10, cart := 1, item_id := MField.jsNull, itemName := "A",
    ordered_quantity := 1, allotted_quantity := 0, status := "Pending",
    remarks := MField.absent, link := MField.absent }

/-- Line item B of the removal evaluation. -/
def itemB : CartItemDoc :=
  { _id := 11, cart := 1, item_id := MField.jsNull, itemName := "B",
    ordered_quantity := 1, allotted_quantity := 0, status := "Pending",
    remarks := MField.absent, link := MField.absent }

/-- The removal evaluation state. -/
def removeState : StoreState :=
  { inventories := [], carts := [twoItemCart], cartItems := [itemA, itemB], nextId := 20 }

/-! Generic list facts used by the endpoint proofs. -/

theorem find?_append_left_none {α : Type} (p : α → Bool) (l1 l2 : List α)
    (h : ∀ x ∈ l1, p x = false) : (l1 ++ l2).find? p = l2.find? p := by
  induction l1 with
  | nil => rfl
  | cons a l ih =>
    have ha := h a (List.mem_cons_self a l)
    rw [List.cons_append, List.find?_cons_of_neg _ (by simp [ha])]
    exact ih (fun x hx => h x (List.mem_cons_of_mem a hx))

theorem filter_not_pred_self {α : Type} (p : α → Bool) (l : List α) :
    (l.filter (fun x => !(p x))).filter p = [] := by
  rw [List.filter_filter]
  apply List.filter_eq_nil_iff.2
  intro a _
  cases hp : p a <;> simp [hp]

theorem replaceCartItem_eq_self (l : List CartItemDoc) (ci : CartItemDoc)
    (h : ∀ x ∈ l, x._id ≠ ci._id) : replaceCartItem l ci = l := by
  unfold replaceCartItem
  conv_rhs => rw [← List.map_id l]
  apply List.map_congr_left
  intro x hx
  simp [h x hx]

theorem replaceCartItem_append (l1 l2 : List CartItemDoc) (ci : CartItemDoc) :
    replaceCartItem (l1 ++ l2) ci = replaceCartItem l1 ci ++ replaceCartItem l2 ci :=
  List.map_append _ l1 l2

theorem replaceCartItem_ids (l : List CartItemDoc) (ci : CartItemDoc) :
    (replaceCartItem l ci).map (fun x => x._id) = l.map (fun x => x._id) := by
  unfold replaceCartItem
  rw [List.map_map]
  apply List.map_congr_left
  intro x _
  by_cases h : x._id = ci._id <;> simp [h]

theorem mem_replaceCartItem {l : List CartItemDoc} {ci x : CartItemDoc}
    (hx : x ∈ replaceCartItem l ci) : x = ci ∨ x ∈ l := by
  rcases List.mem_map.1 hx with ⟨a, ha, hax⟩
  by_cases h : a._id = ci._id
  · left; rw [← hax]; simp [h]
  · right; rw [← hax]; simp [h]; exact ha

theorem replaceCarts_eq_self (l : List CartDoc) (c : CartDoc)
    (h : ∀ x ∈ l, x._id ≠ c._id) : l.map (fun x => if x._id = c._id then c else x) = l := by
  conv_rhs => rw [← List.map_id l]
  apply List.map_congr_left
  intro x hx
  simp [h x hx]

theorem find?_userId_replace (l : List CartDoc) (c c' : CartDoc) (u : Nat)
    (hnd : (l.map (fun x => x._id)).Nodup)
    (hfind : l.find? (fun x => x.userId == u) = some c)
    (hid : c'._id = c._id) (huser : c'.userId = c.userId) :
    (l.map (fun x => if x._id = c'._id then c' else x)).find? (fun x => x.userId == u) = some c' := by
  induction l with
  | nil => simp at hfind
  | cons a l ih =>
    rw [List.map_cons, List.nodup_cons] at hnd
    cases hp : (a.userId == u) with
    | true =>
      have hstep : List.find? (fun x => x.userId == u) (a :: l) = some a :=
        List.find?_cons_of_pos l hp
      rw [hstep] at hfind
      have hac : a = c := by injection hfind
      subst hac
      have h1 : (if a._id = c'._id then c' else a) = c' := by simp [hid]
      have hp' : (c'.userId == u) = true := by rw [huser]; exact hp
      rw [List.map_cons, h1]
      exact List.find?_cons_of_pos _ hp'
    | false =>
      have hstep : List.find? (fun x => x.userId == u) (a :: l) =
          List.find? (fun x => x.userId == u) l :=
        List.find?_cons_of_neg l (by simp [hp])
      rw [hstep] at hfind
      have hcl : c ∈ l := List.mem_of_find?_eq_some hfind
      have hne : a._id ≠ c._id := by
        intro he
        exact hnd.1 (he ▸ List.mem_map.2 ⟨c, hcl, rfl⟩)
      have h1 : (if a._id = c'._id then c' else a) = a := by simp [hid, hne]
      rw [List.map_cons, h1]
      have hstep2 : List.find? (fun x => x.userId == u)
            (a :: l.map (fun x => if x._id = c'._id then c' else x)) =
          List.find? (fun x => x.userId == u)
            (l.map (fun x => if x._id = c'._id then c' else x)) :=
        List.find?_cons_of_neg _ (by simp [hp])
      rw [hstep2]
      exact ih hnd.2 hfind

theorem statusLower_not_enum : ∀ st ∈ statusLower, statusEnum.contains st = false := by decide

theorem statusLower_not_mem_enum : ∀ st ∈ statusLower, st ∉ statusEnum := by decide

/-! Claim theorems. -/

/-- Claim C6: deleting a catalog item cascades so that afterwards no line
item referencing that id remains in any cart, and the reply is NotFound (404)
exactly when the id was absent from the catalog, 200 otherwise. -/
theorem c6_delete_inventory_cascade (s : StoreState) (id : Nat) :
    ((deleteInventory s id).2.cartItems.filter (fun ci => isVal ci.item_id id)) = [] ∧
    (deleteInventory s id).1 =
      (if s.inventories.any (fun inv => inv._id == id) then 200 else 404) := by
  have h2 : (deleteInventory s id).2.cartItems
      = s.cartItems.filter (fun ci => !(isVal ci.item_id id)) := by
    unfold deleteInventory
    cases s.inventories.find? (fun inv => inv._id == id) <;> rfl
  refine ⟨by rw [h2]; exact filter_not_pred_self _ _, ?_⟩
  unfold deleteInventory
  cases h : s.inventories.find? (fun inv => inv._id == id) with
  | none =>
    have hany : s.inventories.any (fun inv => inv._id == id) = false := by
      apply Bool.eq_false_iff.2
      intro hc
      rcases List.any_eq_true.1 hc with ⟨x, hx, hpx⟩
      exact (List.find?_eq_none.1 h x hx) hpx
    simp [hany]
  | some inv =>
    have hp := List.find?_some h
    have hany : s.inventories.any (fun invx => invx._id == id) = true :=
      List.any_eq_true.2 ⟨inv, List.mem_of_find?_eq_some h, hp⟩
    simp [hany]

/-- Claim C7: creating a catalog item whose name already exists answers the
structured 400 duplicate-name conflict (never the generic 500) and leaves the
store, in particular the existing catalog item, unchanged. -/
theorem c7_create_conflict (s : StoreState) (q : Nat) (st nm : String)
    (hst : st = "enabled" ∨ st = "disabled")
    (hdup : ∃ inv ∈ s.inventories, inv.itemName = nm) :
    createInventory s q st nm =
      ({ status := 400, msg := "Item name must be unique. This item already exists." }, s) := by
  unfold createInventory
  have h1 : (st == "enabled" || st == "disabled") = true := by
    rcases hst with h | h <;> simp [h]
  have h2 : s.inventories.any (fun inv => inv.itemName == nm) = true := by
    rcases hdup with ⟨inv, hmem, hname⟩
    exact List.any_eq_true.2 ⟨inv, hmem, by simp [hname]⟩
  simp [h1, h2]

/-- Witness for C7 at a concrete store: the catalog already holds an item
named Rope, so creating another Rope yields the conflict reply and leaves the
store untouched. -/
theorem c7_witness :
    createInventory oneInvState 5 "enabled" "Rope" =
      ({ status := 400, msg := "Item name must be unique. This item already exists." }, oneInvState) :=
  c7_create_conflict oneInvState 5 "enabled" "Rope" (Or.inl rfl) ⟨ropeInv, by decide, rfl⟩

/-- Claim C2 fails on the code: adding the custom item Tape twice to the same
requester cart creates two separate line items (quantities 2 and 3, both with
a stored null catalog reference) instead of one merged line item of quantity
5, and the link supplied on the second add lands on the second line item
rather than overwriting the first.  The existing-item lookup matches
`item_id: { $exists: false }` while custom items are stored with
`item_id: null`, so the merge branch is unreachable. -/
theorem c2_code_evaluation :
    (addCustomItem emptyState 5 "Tape" 2 none).1 = 200 ∧
    (addCustomItem (addCustomItem emptyState 5 "Tape" 2 none).2 5 "Tape" 3 (some "http")).1 = 200 ∧
    ((addCustomItem (addCustomItem emptyState 5 "Tape" 2 none).2 5 "Tape" 3
        (some "http")).2.cartItems.map
      (fun ci => (ci.itemName, ci.ordered_quantity, ci.item_id, ci.link))) =
      [("Tape", 2, MField.jsNull, MField.absent),
       ("Tape", 3, MField.jsNull, MField.val "http")] := by decide

/-- Claim C3 against the code: the allotted-quantity deltas 3 then 2 do
accumulate to 5 and a missing line item id answers 404, but a supplied status
value that passed the route validator (necessarily lowercase) always fails
the capitalised schema enum on save, so the endpoint answers 500 and leaves
the store unchanged instead of replacing the stored status. -/
theorem c3_code_evaluation :
    (updateCartItemStatus oneItemState 10 (some 3) none none).1 = 200 ∧
    ((updateCartItemStatus (updateCartItemStatus oneItemState 10 (some 3) none none).2
        10 (some 2) none none).2.cartItems.map (fun ci => ci.allotted_quantity)) = [5] ∧
    updateCartItemStatus oneItemState 10 none (some "pending") none = (500, oneItemState) ∧
    updateCartItemStatus oneItemState 99 (some 3) none none = (404, oneItemState) := by decide

/-- Claim C9 against the code: in the lenient batch variant a line item whose
catalog reference is dangling is skipped silently while a remark on the other
items is still applied, but a supplied status value (necessarily lowercase
after validation) makes the save fail the capitalised schema enum, so the
endpoint answers 500 with the store unchanged instead of applying the status. -/
theorem c9_code_evaluation :
    (updateItemsStatus mixedRefState
        [{ _id := 11, status := none, remarks := some "r1" },
         { _id := 10, status := none, remarks := some "r2" }]).1 = 200 ∧
    ((updateItemsStatus mixedRefState
        [{ _id := 11, status := none, remarks := some "r1" },
         { _id := 10, status := none, remarks := some "r2" }]).2.cartItems.map
      (fun ci => (ci._id, ci.remarks))) =
      [(10, MField.val "r2"), (11, MField.absent)] ∧
    updateItemsStatus mixedRefState [{ _id := 10, status := some "ready", remarks := none }] =
      (500, mixedRefState) := by decide

/-- Counterexample to claim C8 as stated: a strict batch holding a missing id
(99) followed by an existing line item (10) answers 500 - not the claimed
NotFound 404 - and the subsequent item is still processed and updated (its
remark becomes y). -/
theorem c8_counterexample :
    (updateMultipleCartItems oneItemState [missingReq, presentReq]).1 = 500 ∧
    ¬((updateMultipleCartItems oneItemState [missingReq, presentReq]).1 = 404) ∧
    ((updateMultipleCartItems oneItemState [missingReq, presentReq]).2.cartItems.map
      (fun ci => ci.remarks)) = [MField.val "y"] := by decide

theorem applyStatusReq_id (ci : CartItemDoc) (it : StatusReq) :
    (applyStatusReq ci it)._id = ci._id := by
  unfold applyStatusReq
  cases it.status <;> cases it.remarks <;> rfl

theorem applyStatusReq_status_some (ci : CartItemDoc) (it : StatusReq) (st : String)
    (h : it.status = some st) : (applyStatusReq ci it).status = st := by
  unfold applyStatusReq
  rw [h]
  cases it.remarks <;> rfl

theorem applyStatusReq_status_none (ci : CartItemDoc) (it : StatusReq)
    (h : it.status = none) : (applyStatusReq ci it).status = ci.status := by
  unfold applyStatusReq
  rw [h]
  cases it.remarks <;> rfl

/-- Through the lenient batch loop every stored line item keeps its status:
a status supplied by a validated request is lowercase, fails the capitalised
schema enum on save and therefore never reaches the store. -/
theorem updateItemsGo_status_preserved (invIds : List Nat) (items : List StatusReq) :
    ∀ s : StoreState, (∀ it ∈ items, ∀ st, it.status = some st → st ∈ statusLower) →
      ∀ x ∈ ((updateItemsGo invIds s items).2).cartItems,
        ∃ y ∈ s.cartItems, y._id = x._id ∧ y.status = x.status := by
  induction items with
  | nil =>
    intro s _ x hx
    exact ⟨x, hx, rfl, rfl⟩
  | cons it rest ih =>
    intro s hLower x hx
    have hTail : ∀ it2 ∈ rest, ∀ st, it2.status = some st → st ∈ statusLower :=
      fun it2 h2 => hLower it2 (List.mem_cons_of_mem it h2)
    rw [updateItemsGo] at hx
    split at hx
    · exact ⟨x, hx, rfl, rfl⟩
    · rename_i ci hf
      split at hx
      · rename_i k hii
        split at hx
        · split at hx
          · rename_i hcont hvalid
            rcases ih _ hTail x hx with ⟨y, hy, hyid, hystat⟩
            rcases mem_replaceCartItem hy with hyc | hys
            · refine ⟨ci, List.mem_of_find?_eq_some hf, ?_, ?_⟩
              · rw [← hyid, hyc, applyStatusReq_id]
              · cases hst : it.status with
                | some st =>
                  exfalso
                  have hlow : st ∈ statusLower := hLower it (List.mem_cons_self it rest) st hst
                  have : validCartItem (applyStatusReq ci it) = false := by
                    unfold validCartItem
                    rw [applyStatusReq_status_some ci it st hst, statusLower_not_enum st hlow]
                    rfl
                  rw [hvalid] at this
                  exact Bool.true_eq_false.mp this
                | none =>
                  rw [← hystat, hyc, applyStatusReq_status_none ci it hst]
            · exact ⟨y, hys, hyid, hystat⟩
          · exact ⟨x, hx, rfl, rfl⟩
        · exact ih s hTail x hx
      · exact ⟨x, hx, rfl, rfl⟩

/-- Claim C10: every status value accepted by the update endpoints input
validation (the lowercase list) is outside the stored schema enumeration (the
capitalised list); consequently the single-item update endpoint, on any
request carrying a validated status, answers 404 or 500 and leaves the store
unchanged, and the lenient batch endpoint never changes any stored line-item
status - in particular no such request ever sets a stored status to the value
it names. -/
theorem c10_status_enum_mismatch (s : StoreState) :
    (∀ st ∈ statusLower, st ∉ statusEnum) ∧
    (∀ cartItemId : Nat, ∀ allotted : Option Nat, ∀ remarks : Option String,
      ∀ st ∈ statusLower,
      updateCartItemStatus s cartItemId allotted (some st) remarks = (404, s) ∨
      updateCartItemStatus s cartItemId allotted (some st) remarks = (500, s)) ∧
    (∀ items : List StatusReq, ∀ x ∈ ((updateItemsStatus s items).2).cartItems,
      ∃ y ∈ s.cartItems, y._id = x._id ∧ y.status = x.status) := by
  refine ⟨by decide, ?_, ?_⟩
  · intro cartItemId allotted remarks st hst
    have henum : st ∉ statusEnum := statusLower_not_mem_enum st hst
    unfold updateCartItemStatus
    cases hf : s.cartItems.find? (fun ci => ci._id == cartItemId) with
    | none =>
      left
      simp [hf, hst]
    | some ci =>
      right
      cases allotted <;> cases remarks <;> simp [hf, hst, henum, validCartItem]
  · intro items x hx
    unfold updateItemsStatus at hx
    split at hx
    · rename_i hall
      refine updateItemsGo_status_preserved _ items s ?_ x hx
      intro it hit st hstx
      have hone := List.all_eq_true.1 hall it hit
      simp only [hstx] at hone
      exact List.mem_of_elem_eq_true hone
    · exact ⟨x, hx, rfl, rfl⟩

/-- Witness for C10: at the one-item store a validated status request
answers 500 and leaves the store unchanged, and a sample validated status is
outside the schema enumeration. -/
theorem c10_witness :
    updateCartItemStatus oneItemState 10 none (some "ready") none = (500, oneItemState) ∧
    "pending" ∉ statusEnum := by
  have h := c10_status_enum_mismatch oneItemState
  refine ⟨?_, h.1 "pending" (by decide)⟩
  rcases h.2.1 10 none none "ready" (by decide) with h1 | h1
  · exact absurd h1 (by decide)
  · exact h1

theorem applyUpdate_id (ci : CartItemDoc) (it : UpdateReq) :
    (applyUpdate ci it)._id = ci._id := by
  unfold applyUpdate
  cases it.allotted_quantity <;> cases it.status <;> cases it.remarks <;> rfl

/-- The strict batch loop never deletes a document and never changes an id:
the multiset of stored line-item ids is untouched. -/
theorem updateMultipleGo_ids (items : List UpdateReq) :
    ∀ s : StoreState,
      ((updateMultipleGo s items).2).cartItems.map (fun x => x._id) =
        s.cartItems.map (fun x => x._id) := by
  induction items with
  | nil => intro s; rfl
  | cons it rest ih =>
    intro s
    rw [updateMultipleGo]
    cases hf : s.cartItems.find? (fun ci => ci._id == it._id) with
    | none => exact ih s
    | some ci =>
      dsimp only
      by_cases hv : validCartItem (applyUpdate ci it) = true
      · rw [if_pos hv, ih]
        exact replaceCartItem_ids s.cartItems (applyUpdate ci it)
      · rw [if_neg hv]
        exact ih s

/-- Transfer of a failed id lookup along an equality of stored id lists. -/
theorem find?_id_none_of_ids_eq {l1 l2 : List CartItemDoc} (n : Nat)
    (hids : l1.map (fun x => x._id) = l2.map (fun x => x._id))
    (h : l2.find? (fun ci => ci._id == n) = none) :
    l1.find? (fun ci => ci._id == n) = none := by
  apply List.find?_eq_none.2
  intro x hx hpx
  have hmem : x._id ∈ l1.map (fun y => y._id) := List.mem_map.2 ⟨x, hx, rfl⟩
  rw [hids] at hmem
  rcases List.mem_map.1 hmem with ⟨y, hy, hyx⟩
  apply List.find?_eq_none.1 h y hy
  show (y._id == n) = true
  rw [hyx]
  exact hpx

/-- Dropping a missing-id element from a strict batch: the loop reports the
rejection but the final store is the one obtained from the remaining items,
because every per-item promise runs to completion regardless. -/
theorem updateMultipleGo_skip (bad : UpdateReq) (pre : List UpdateReq) :
    ∀ (post : List UpdateReq) (s : StoreState),
      s.cartItems.find? (fun ci => ci._id == bad._id) = none →
      updateMultipleGo s (pre ++ bad :: post) = (true, (updateMultipleGo s (pre ++ post)).2) := by
  induction pre with
  | nil =>
    intro post s hbad
    rw [List.nil_append, List.nil_append, updateMultipleGo, hbad]
  | cons it pre ih =>
    intro post s hbad
    rw [List.cons_append, List.cons_append]
    rw [updateMultipleGo]
    conv_rhs => rw [updateMultipleGo]
    cases hf : s.cartItems.find? (fun ci => ci._id == it._id) with
    | none => rw [ih post s hbad]
    | some ci =>
      dsimp only
      by_cases hv : validCartItem (applyUpdate ci it) = true
      · rw [if_pos hv, if_pos hv]
        apply ih
        exact find?_id_none_of_ids_eq bad._id
          (replaceCartItem_ids s.cartItems (applyUpdate ci it)) hbad
      · rw [if_neg hv, if_neg hv, ih post s hbad]

/-- Claim C8, amended: in the strict batch variant a request holding a
missing line item id answers the generic internal 500 (not a structured 404),
and the remaining items of the batch are still processed: the final store is
exactly the store obtained by processing the batch without the missing
element. -/
theorem c8_amended_batch (s : StoreState) (pre post : List UpdateReq) (bad : UpdateReq)
    (hbad : s.cartItems.find? (fun ci => ci._id == bad._id) = none)
    (hfields : (pre ++ bad :: post).all hasUpdateField = true) :
    updateMultipleCartItems s (pre ++ bad :: post) =
      (500, (updateMultipleGo s (pre ++ post)).2) := by
  unfold updateMultipleCartItems
  rw [hfields, updateMultipleGo_skip bad pre post s hbad]
  rfl

/-- Witness for C8: at the one-item store, a batch made of a missing id
followed by the present item 10 answers 500 and ends in the store reached by
processing only the present item. -/
theorem c8_witness :
    updateMultipleCartItems oneItemState [missingReq, presentReq] =
      (500, (updateMultipleGo oneItemState [presentReq]).2) :=
  c8_amended_batch oneItemState [] [presentReq] missingReq (by decide) (by decide)

theorem itemKey_of_refOf_none (ci : CartItemDoc) (h : refOf ci.item_id = none) :
    itemKey ci = ci._id := by
  unfold itemKey
  cases hid : ci.item_id with
  | val k => rw [hid] at h; simp [refOf] at h
  | jsNull => rfl
  | absent => rfl

/-- Unwinding of the group lookup over a cons cell. -/
theorem groupOrdered_cons (g : GroupAcc) (gs : List GroupAcc) (k : Nat) :
    groupOrdered (g :: gs) k =
      if g.key = k then g.totalOrderedQuantity else groupOrdered gs k := by
  unfold groupOrdered
  by_cases h : g.key = k
  · rw [List.find?_cons_of_pos _ (by simp [h]), if_pos h]
  · rw [List.find?_cons_of_neg _ (by simp [h]), if_neg h]

/-- Unwinding of the group lookup over a cons cell. -/
theorem groupAllotted_cons (g : GroupAcc) (gs : List GroupAcc) (k : Nat) :
    groupAllotted (g :: gs) k =
      if g.key = k then g.totalAllottedQuantity else groupAllotted gs k := by
  unfold groupAllotted
  by_cases h : g.key = k
  · rw [List.find?_cons_of_pos _ (by simp [h]), if_pos h]
  · rw [List.find?_cons_of_neg _ (by simp [h]), if_neg h]

/-- One reduce step changes exactly the group of the key of the processed
cart item, adding its ordered quantity. -/
theorem groupOrdered_addToGroups (gs : List GroupAcc) (ci : CartItemDoc) (k : Nat) :
    groupOrdered (addToGroups gs ci) k =
      groupOrdered gs k + (if itemKey ci = k then ci.ordered_quantity else 0) := by
  induction gs with
  | nil =>
    by_cases h : itemKey ci = k <;> simp [addToGroups, groupOrdered, h]
  | cons g gs ih =>
    unfold addToGroups
    by_cases hk : g.key = itemKey ci
    · rw [if_pos (by simp [hk])]
      rw [groupOrdered_cons, groupOrdered_cons]
      dsimp only
      by_cases hgk : g.key = k
      · have hik : itemKey ci = k := by rw [← hk]; exact hgk
        rw [if_pos hgk, if_pos hgk, if_pos hik]
      · have hik : ¬(itemKey ci = k) := by rw [← hk]; exact hgk
        rw [if_neg hgk, if_neg hgk, if_neg hik]
        omega
    · rw [if_neg (by simp [hk])]
      rw [groupOrdered_cons, groupOrdered_cons]
      by_cases hgk : g.key = k
      · have hik : ¬(itemKey ci = k) := fun he => hk (hgk.trans he.symm)
        rw [if_pos hgk, if_pos hgk, if_neg hik]
        omega
      · rw [if_neg hgk, if_neg hgk, ih]

/-- Same statement for the allotted quantity. -/
theorem groupAllotted_addToGroups (gs : List GroupAcc) (ci : CartItemDoc) (k : Nat) :
    groupAllotted (addToGroups gs ci) k =
      groupAllotted gs k + (if itemKey ci = k then ci.allotted_quantity else 0) := by
  induction gs with
  | nil =>
    by_cases h : itemKey ci = k <;> simp [addToGroups, groupAllotted, h]
  | cons g gs ih =>
    unfold addToGroups
    by_cases hk : g.key = itemKey ci
    · rw [if_pos (by simp [hk])]
      rw [groupAllotted_cons, groupAllotted_cons]
      dsimp only
      by_cases hgk : g.key = k
      · have hik : itemKey ci = k := by rw [← hk]; exact hgk
        rw [if_pos hgk, if_pos hgk, if_pos hik]
      · have hik : ¬(itemKey ci = k) := by rw [← hk]; exact hgk
        rw [if_neg hgk, if_neg hgk, if_neg hik]
        omega
    · rw [if_neg (by simp [hk])]
      rw [groupAllotted_cons, groupAllotted_cons]
      by_cases hgk : g.key = k
      · have hik : ¬(itemKey ci = k) := fun he => hk (hgk.trans he.symm)
        rw [if_pos hgk, if_pos hgk, if_neg hik]
        omega
      · rw [if_neg hgk, if_neg hgk, ih]

/-- The reduce computes, for every key, the sum of the ordered quantities of
the cart items carrying that key. -/
theorem groupOrdered_foldl (items : List CartItemDoc) :
    ∀ (acc : List GroupAcc) (k : Nat),
      groupOrdered (items.foldl addToGroups acc) k =
        groupOrdered acc k +
          ((items.filter (fun ci => itemKey ci == k)).map (fun ci => ci.ordered_quantity)).sum := by
  induction items with
  | nil => intro acc k; simp
  | cons ci rest ih =>
    intro acc k
    rw [List.foldl_cons, ih, groupOrdered_addToGroups]
    by_cases h : itemKey ci = k
    · rw [List.filter_cons_of_pos (by simp [h])]
      simp [h]
      omega
    · rw [List.filter_cons_of_neg (by simp [h])]
      simp [h]

/-- The reduce computes, for every key, the sum of the allotted quantities of
the cart items carrying that key. -/
theorem groupAllotted_foldl (items : List CartItemDoc) :
    ∀ (acc : List GroupAcc) (k : Nat),
      groupAllotted (items.foldl addToGroups acc) k =
        groupAllotted acc k +
          ((items.filter (fun ci => itemKey ci == k)).map (fun ci => ci.allotted_quantity)).sum := by
  induction items with
  | nil => intro acc k; simp
  | cons ci rest ih =>
    intro acc k
    rw [List.foldl_cons, ih, groupAllotted_addToGroups]
    by_cases h : itemKey ci = k
    · rw [List.filter_cons_of_pos (by simp [h])]
      simp [h]
      omega
    · rw [List.filter_cons_of_neg (by simp [h])]
      simp [h]

/-- Claim C4: when no custom line item id collides with a catalog id (true of
the real store, where object ids are globally unique), the summary report
emits exactly one row per catalog item whose totals are the sums of ordered
and allotted quantities over exactly the line items referencing that catalog
id (zero when none does) and whose available quantity is the catalog
quantity; moreover two distinct custom items never share a group key, even
with equal names. -/
theorem c4_summary_totals (s : StoreState)
    (hIds : ∀ ci ∈ s.cartItems, refOf ci.item_id = none →
      ∀ inv ∈ s.inventories, ci._id ≠ inv._id) :
    cartItemSummary s =
      s.inventories.map (fun inv =>
        { _id := inv._id, itemName := inv.itemName, availableQuantity := inv.itemQuantity,
          totalOrderedQuantity :=
            ((s.cartItems.filter (fun ci => refOf ci.item_id == some inv._id)).map
              (fun ci => ci.ordered_quantity)).sum,
          totalAllottedQuantity :=
            ((s.cartItems.filter (fun ci => refOf ci.item_id == some inv._id)).map
              (fun ci => ci.allotted_quantity)).sum,
          itemOrderedStatus := orEmpty (MField.val inv.itemOrderedStatus),
          itemRemark := orEmpty inv.itemRemark }) ∧
    (∀ ci1 ∈ s.cartItems, ∀ ci2 ∈ s.cartItems,
      refOf ci1.item_id = none → refOf ci2.item_id = none → ci1._id ≠ ci2._id →
      itemKey ci1 ≠ itemKey ci2) := by
  constructor
  · simp only [cartItemSummary]
    apply List.map_congr_left
    intro inv hinv
    have hfilter : ∀ ci ∈ s.cartItems,
        (itemKey ci == inv._id) = (refOf ci.item_id == some inv._id) := by
      intro ci hci
      cases hid : ci.item_id with
      | val k => simp [itemKey, refOf, hid]
      | jsNull =>
        have hne := hIds ci hci (by rw [hid]; rfl) inv hinv
        simp [itemKey, refOf, hid, hne]
      | absent =>
        have hne := hIds ci hci (by rw [hid]; rfl) inv hinv
        simp [itemKey, refOf, hid, hne]
    have hO : groupOrdered (s.cartItems.foldl addToGroups []) inv._id =
        ((s.cartItems.filter (fun ci => refOf ci.item_id == some inv._id)).map
          (fun ci => ci.ordered_quantity)).sum := by
      rw [groupOrdered_foldl, List.filter_congr hfilter]
      simp [groupOrdered]
    have hA : groupAllotted (s.cartItems.foldl addToGroups []) inv._id =
        ((s.cartItems.filter (fun ci => refOf ci.item_id == some inv._id)).map
          (fun ci => ci.allotted_quantity)).sum := by
      rw [groupAllotted_foldl, List.filter_congr hfilter]
      simp [groupAllotted]
    rw [hO, hA]
  · intro ci1 h1 ci2 h2 hr1 hr2 hne
    rw [itemKey_of_refOf_none ci1 hr1, itemKey_of_refOf_none ci2 hr2]
    exact hne

/-- Witness for C4 at the summary evaluation state: catalog item A with line
items requesting 3 and 4 (allotted 1 and 2) reports one row with totals 7 and
3 and available quantity 10; the two same-named custom items stay apart. -/
theorem c4_witness :
    (cartItemSummary summaryState).map
      (fun r => (r._id, r.availableQuantity, r.totalOrderedQuantity, r.totalAllottedQuantity)) =
      [(1, 10, 7, 3)] := by
  have h := c4_summary_totals summaryState (by decide)
  rw [h.1]
  decide

/-- The cart save touches only the cart collection. -/
theorem saveCart_cartItems (s : StoreState) (c : CartDoc) :
    (saveCart s c).cartItems = s.cartItems := by
  unfold saveCart
  split <;> rfl

/-- Claim C5: removal by display name answers 404 when the cart or the named
item is absent; otherwise it answers 200, deletes the line item from the
line-item store, removes its reference from the cart, deletes the cart when
that reference was its last one and keeps the cart (sans the reference)
otherwise. -/
theorem c5_remove_item (s : StoreState) (cartId : Nat) (nm : String) :
    (s.carts.find? (fun c => c._id == cartId) = none → removeItem s cartId nm = (404, s)) ∧
    (∀ c, s.carts.find? (fun c => c._id == cartId) = some c →
      s.cartItems.find? (fun ci => ci.cart == c._id && ci.itemName == nm) = none →
      removeItem s cartId nm = (404, s)) ∧
    (∀ c ci, s.carts.find? (fun x => x._id == cartId) = some c →
      s.cartItems.find? (fun x => x.cart == c._id && x.itemName == nm) = some ci →
      (removeItem s cartId nm).1 = 200 ∧
      ((removeItem s cartId nm).2.cartItems.filter (fun x => x._id == ci._id) = []) ∧
      (c.cartItems.filter (fun r => !(r == ci._id)) = [] →
        (removeItem s cartId nm).2.carts.filter (fun x => x._id == c._id) = []) ∧
      (¬(c.cartItems.filter (fun r => !(r == ci._id)) = []) →
        ∃ c2 ∈ (removeItem s cartId nm).2.carts, c2._id = c._id ∧ ci._id ∉ c2.cartItems)) := by
  refine ⟨?_, ?_, ?_⟩
  · intro h
    unfold removeItem
    rw [h]
  · intro c hc hitem
    unfold removeItem
    rw [hc]
    dsimp only
    rw [hitem]
  · intro c ci hc hi
    unfold removeItem
    rw [hc]
    dsimp only
    rw [hi]
    dsimp only
    by_cases hr : (c.cartItems.filter (fun r => !(r == ci._id))).isEmpty = true
    · rw [if_pos hr]
      refine ⟨rfl, filter_not_pred_self _ _, ?_, ?_⟩
      · intro _
        exact filter_not_pred_self _ _
      · intro hne
        exact absurd (List.isEmpty_iff.1 hr) hne
    · rw [if_neg hr]
      refine ⟨rfl, ?_, ?_, ?_⟩
      · dsimp only
        rw [saveCart_cartItems]
        exact filter_not_pred_self _ _
      · intro he
        exact absurd (List.isEmpty_iff.2 he) hr
      · intro _
        have hcmem : c ∈ s.carts := List.mem_of_find?_eq_some hc
        have hany : s.carts.any
            (fun x => x._id == ({ c with
              cartItems := c.cartItems.filter (fun r => !(r == ci._id)) } : CartDoc)._id) = true :=
          List.any_eq_true.2 ⟨c, hcmem, by simp⟩
        unfold saveCart
        rw [if_pos hany]
        refine ⟨{ c with cartItems := c.cartItems.filter (fun r => !(r == ci._id)) },
          List.mem_map.2 ⟨c, hcmem, by simp⟩, rfl, ?_⟩
        intro hmem
        have := (List.mem_filter.1 hmem).2
        simp at this

/-- Witness for C5: removing item A from the two-item cart answers 200,
deletes the line item, and the cart survives with the reference gone. -/
theorem c5_witness :
    (removeItem removeState 1 "A").1 = 200 ∧
    ((removeItem removeState 1 "A").2.cartItems.filter (fun x => x._id == itemA._id) = []) ∧
    (∃ c2 ∈ (removeItem removeState 1 "A").2.carts,
      c2._id = twoItemCart._id ∧ itemA._id ∉ c2.cartItems) := by
  have h := (c5_remove_item removeState 1 "A").2.2 twoItemCart itemA (by decide) (by decide)
  exact ⟨h.1, h.2.1, h.2.2.2 (by decide)⟩

/-- A single-item add-items call that merges: the cart exists, the catalog
item exists, and the cart already holds a line item for it.  The call answers
200, accumulates the quantity on that line item and re-saves the cart. -/
theorem addItems_single_merge (t : StoreState) (u invId q : Nat) (c : CartDoc)
    (e : CartItemDoc) (hq : 1 ≤ q)
    (hc : t.carts.find? (fun x => x.userId == u) = some c)
    (hinv : (t.inventories.find? (fun x => x._id == invId)).isSome = true)
    (he : t.cartItems.find? (fun ci => ci.cart == c._id && isVal ci.item_id invId) = some e)
    (hval : validCartItem { e with ordered_quantity := e.ordered_quantity + q } = true) :
    addItems t u [{ item_id := invId, ordered_quantity := q }] =
      (200, saveCart
        { t with
          cartItems :=
            replaceCartItem t.cartItems { e with ordered_quantity := e.ordered_quantity + q } } c) := by
  obtain ⟨inv, hinv'⟩ := Option.isSome_iff_exists.1 hinv
  unfold addItems
  rw [if_neg (by simp [hq])]
  dsimp only
  rw [hc]
  dsimp only
  rw [addItemsGo, hinv']
  dsimp only
  rw [he]
  dsimp only
  rw [if_pos hval, addItemsGo]

/-- A single-item add-items call that creates a line item in an existing
cart: the catalog item exists and the cart has no line item for it yet.  The
call answers 200, appends a fresh Pending line item copying the catalog name
and saves the cart with the new reference pushed. -/
theorem addItems_single_create (t : StoreState) (u invId q : Nat) (c : CartDoc)
    (inv : InventoryDoc) (hq : 1 ≤ q)
    (hc : t.carts.find? (fun x => x.userId == u) = some c)
    (hinv : t.inventories.find? (fun x => x._id == invId) = some inv)
    (hnone : t.cartItems.find? (fun ci => ci.cart == c._id && isVal ci.item_id invId) = none) :
    addItems t u [{ item_id := invId, ordered_quantity := q }] =
      (200, saveCart
        { t with
          cartItems := t.cartItems ++ [mkLineItem t.nextId c._id invId inv.itemName q],
          nextId := t.nextId + 1 }
        { c with cartItems := c.cartItems ++ [t.nextId] }) := by
  unfold addItems
  rw [if_neg (by simp [hq])]
  dsimp only
  rw [hc]
  dsimp only
  rw [addItemsGo, hinv]
  dsimp only
  rw [hnone]
  dsimp only
  rw [if_pos (by simp [validCartItem, statusEnum, hq]), addItemsGo]
  rfl

/-- A single-item add-items call for a requester with no cart yet: the call
answers 200, creates the cart and one fresh Pending line item in it. -/
theorem addItems_single_create_nocart (t : StoreState) (u invId q : Nat)
    (inv : InventoryDoc) (hq : 1 ≤ q)
    (hc : t.carts.find? (fun x => x.userId == u) = none)
    (hinv : t.inventories.find? (fun x => x._id == invId) = some inv)
    (hnone : t.cartItems.find? (fun ci => ci.cart == t.nextId && isVal ci.item_id invId) = none) :
    addItems t u [{ item_id := invId, ordered_quantity := q }] =
      (200, saveCart
        { t with
          cartItems := t.cartItems ++ [mkLineItem (t.nextId + 1) t.nextId invId inv.itemName q],
          nextId := t.nextId + 2 }
        { _id := t.nextId, userId := u, cartItems := [t.nextId + 1] }) := by
  unfold addItems
  rw [if_neg (by simp [hq])]
  dsimp only
  rw [hc]
  dsimp only
  rw [addItemsGo, hinv]
  dsimp only
  rw [hnone]
  dsimp only
  rw [if_pos (by simp [validCartItem, statusEnum, hq]), addItemsGo]
  rfl

/-- The C1 merge property for a requester that already has a cart: both adds
answer 200 and the requester cart ends up with exactly one line item for the
catalog item, carrying quantity q1 + q2. -/
theorem c1_case_existing (s : StoreState) (u invId q1 q2 : Nat) (c0 : CartDoc)
    (inv : InventoryDoc) (hq1 : 1 ≤ q1) (hq2 : 1 ≤ q2)
    (hndCartIds : (s.carts.map (fun c => c._id)).Nodup)
    (hItemLt : ∀ ci ∈ s.cartItems, ci._id < s.nextId)
    (hc : s.carts.find? (fun x => x.userId == u) = some c0)
    (hinv : s.inventories.find? (fun x => x._id == invId) = some inv)
    (hFresh : ∀ ci ∈ s.cartItems, isVal ci.item_id invId = false) :
    (addItems s u [{ item_id := invId, ordered_quantity := q1 }]).1 = 200 ∧
    (addItems (addItems s u [{ item_id := invId, ordered_quantity := q1 }]).2 u
        [{ item_id := invId, ordered_quantity := q2 }]).1 = 200 ∧
    ∃ c ∈ (addItems (addItems s u [{ item_id := invId, ordered_quantity := q1 }]).2 u
        [{ item_id := invId, ordered_quantity := q2 }]).2.carts,
      c.userId = u ∧
      ((addItems (addItems s u [{ item_id := invId, ordered_quantity := q1 }]).2 u
          [{ item_id := invId, ordered_quantity := q2 }]).2.cartItems.filter
          (fun ci => ci.cart == c._id && isVal ci.item_id invId)).map
        (fun ci => ci.ordered_quantity) = [q1 + q2] := by
  have hc0mem : c0 ∈ s.carts := List.mem_of_find?_eq_some hc
  have hc0u : c0.userId = u := by
    have h1 := List.find?_some hc
    simpa using h1
  have hnone1 : s.cartItems.find? (fun ci => ci.cart == c0._id && isVal ci.item_id invId) = none :=
    List.find?_eq_none.2 (fun x hx => by simp [hFresh x hx])
  have hA := addItems_single_create s u invId q1 c0 inv hq1 hc hinv hnone1
  have hanyA : s.carts.any (fun x => x._id == c0._id) = true :=
    List.any_eq_true.2 ⟨c0, hc0mem, by simp⟩
  have hfullA : addItems s u [{ item_id := invId, ordered_quantity := q1 }] =
      (200,
        { inventories := s.inventories,
          carts := s.carts.map (fun x =>
            if x._id = c0._id then { c0 with cartItems := c0.cartItems ++ [s.nextId] } else x),
          cartItems := s.cartItems ++ [mkLineItem s.nextId c0._id invId inv.itemName q1],
          nextId := s.nextId + 1 }) := by
    rw [hA]
    unfold saveCart
    dsimp only
    rw [if_pos hanyA]
  have hfind2c :
      (s.carts.map (fun x =>
        if x._id = c0._id then { c0 with cartItems := c0.cartItems ++ [s.nextId] } else x)).find?
          (fun x => x.userId == u) =
        some { c0 with cartItems := c0.cartItems ++ [s.nextId] } :=
    find?_userId_replace s.carts c0 { c0 with cartItems := c0.cartItems ++ [s.nextId] } u
      hndCartIds hc rfl rfl
  have hinvS : (s.inventories.find? (fun x => x._id == invId)).isSome = true := by
    rw [hinv]; rfl
  have hfind2e :
      ((s.cartItems ++ [mkLineItem s.nextId c0._id invId inv.itemName q1]).find?
        (fun ci => ci.cart == ({ c0 with cartItems := c0.cartItems ++ [s.nextId] } : CartDoc)._id &&
          isVal ci.item_id invId)) =
        some (mkLineItem s.nextId c0._id invId inv.itemName q1) := by
    rw [find?_append_left_none _ _ _ (fun x hx => by simp [hFresh x hx])]
    rw [List.find?_cons_of_pos _ (by simp [mkLineItem, isVal])]
  have hord : 1 ≤ q1 + q2 := le_trans hq1 (Nat.le_add_right q1 q2)
  have hval2 : validCartItem
      { mkLineItem s.nextId c0._id invId inv.itemName q1 with
        ordered_quantity :=
          (mkLineItem s.nextId c0._id invId inv.itemName q1).ordered_quantity + q2 } = true := by
    simp [validCartItem, mkLineItem, statusEnum, hord]
  have hB := addItems_single_merge
    { inventories := s.inventories,
      carts := s.carts.map (fun x =>
        if x._id = c0._id then { c0 with cartItems := c0.cartItems ++ [s.nextId] } else x),
      cartItems := s.cartItems ++ [mkLineItem s.nextId c0._id invId inv.itemName q1],
      nextId := s.nextId + 1 }
    u invId q2 { c0 with cartItems := c0.cartItems ++ [s.nextId] }
    (mkLineItem s.nextId c0._id invId inv.itemName q1) hq2 hfind2c hinvS hfind2e hval2
  have hcAmem : ({ c0 with cartItems := c0.cartItems ++ [s.nextId] } : CartDoc) ∈
      s.carts.map (fun x =>
        if x._id = c0._id then { c0 with cartItems := c0.cartItems ++ [s.nextId] } else x) :=
    List.mem_of_find?_eq_some hfind2c
  have hanyB : (s.carts.map (fun x =>
      if x._id = c0._id then { c0 with cartItems := c0.cartItems ++ [s.nextId] } else x)).any
        (fun x => x._id == c0._id) = true :=
    List.any_eq_true.2 ⟨_, hcAmem, by simp⟩
  have hne : ∀ x ∈ s.cartItems, x._id ≠
      ({ mkLineItem s.nextId c0._id invId inv.itemName q1 with
        ordered_quantity :=
          (mkLineItem s.nextId c0._id invId inv.itemName q1).ordered_quantity + q2 } :
            CartItemDoc)._id := by
    intro x hx
    have hlt := hItemLt x hx
    simp only [mkLineItem]
    omega
  have hrepl : replaceCartItem
      (s.cartItems ++ [mkLineItem s.nextId c0._id invId inv.itemName q1])
      { mkLineItem s.nextId c0._id invId inv.itemName q1 with
        ordered_quantity :=
          (mkLineItem s.nextId c0._id invId inv.itemName q1).ordered_quantity + q2 } =
      s.cartItems ++
        [{ mkLineItem s.nextId c0._id invId inv.itemName q1 with
          ordered_quantity :=
            (mkLineItem s.nextId c0._id invId inv.itemName q1).ordered_quantity + q2 }] := by
    rw [replaceCartItem_append, replaceCartItem_eq_self _ _ hne]
    simp [replaceCartItem, mkLineItem]
  have hfilnil : List.filter
      (fun ci => ci.cart == ({ c0 with cartItems := c0.cartItems ++ [s.nextId] } : CartDoc)._id &&
        isVal ci.item_id invId) s.cartItems = [] :=
    List.filter_eq_nil_iff.2 (fun x hx => by simp [hFresh x hx])
  rw [hfullA]
  dsimp only
  rw [hB]
  dsimp only
  refine ⟨rfl, rfl, ?_⟩
  unfold saveCart
  dsimp only
  rw [if_pos hanyB]
  dsimp only
  refine ⟨{ c0 with cartItems := c0.cartItems ++ [s.nextId] },
    List.mem_map.2 ⟨_, hcAmem, by simp⟩, hc0u, ?_⟩
  rw [hrepl, List.filter_append, hfilnil]
  rw [List.filter_cons_of_pos (by simp [mkLineItem, isVal])]
  rfl

/-- The C1 merge property for a requester with no cart yet: the first add
creates the cart, the second merges, and the new cart holds exactly one line
item for the catalog item with quantity q1 + q2. -/
theorem c1_case_new (s : StoreState) (u invId q1 q2 : Nat)
    (inv : InventoryDoc) (hq1 : 1 ≤ q1) (hq2 : 1 ≤ q2)
    (hCartLt : ∀ c ∈ s.carts, c._id < s.nextId)
    (hItemLt : ∀ ci ∈ s.cartItems, ci._id < s.nextId)
    (hc : s.carts.find? (fun x => x.userId == u) = none)
    (hinv : s.inventories.find? (fun x => x._id == invId) = some inv)
    (hFresh : ∀ ci ∈ s.cartItems, isVal ci.item_id invId = false) :
    (addItems s u [{ item_id := invId, ordered_quantity := q1 }]).1 = 200 ∧
    (addItems (addItems s u [{ item_id := invId, ordered_quantity := q1 }]).2 u
        [{ item_id := invId, ordered_quantity := q2 }]).1 = 200 ∧
    ∃ c ∈ (addItems (addItems s u [{ item_id := invId, ordered_quantity := q1 }]).2 u
        [{ item_id := invId, ordered_quantity := q2 }]).2.carts,
      c.userId = u ∧
      ((addItems (addItems s u [{ item_id := invId, ordered_quantity := q1 }]).2 u
          [{ item_id := invId, ordered_quantity := q2 }]).2.cartItems.filter
          (fun ci => ci.cart == c._id && isVal ci.item_id invId)).map
        (fun ci => ci.ordered_quantity) = [q1 + q2] := by
  have hnoneB : s.cartItems.find?
      (fun ci => ci.cart == s.nextId && isVal ci.item_id invId) = none :=
    List.find?_eq_none.2 (fun x hx => by simp [hFresh x hx])
  have hP := addItems_single_create_nocart s u invId q1 inv hq1 hc hinv hnoneB
  have hany0 : s.carts.any (fun x => x._id == s.nextId) = false := by
    apply Bool.eq_false_iff.2
    intro hcon
    rcases List.any_eq_true.1 hcon with ⟨x, hx, hpx⟩
    have hlt := hCartLt x hx
    simp at hpx
    omega
  have hfullA : addItems s u [{ item_id := invId, ordered_quantity := q1 }] =
      (200,
        { inventories := s.inventories,
          carts := s.carts ++ [{ _id := s.nextId, userId := u, cartItems := [s.nextId + 1] }],
          cartItems := s.cartItems ++ [mkLineItem (s.nextId + 1) s.nextId invId inv.itemName q1],
          nextId := s.nextId + 2 }) := by
    rw [hP]
    unfold saveCart
    dsimp only
    rw [if_neg (by simp [hany0])]
  have hprefC : ∀ x ∈ s.carts, (fun x => x.userId == u) x = false :=
    fun x hx => Bool.eq_false_iff.2 (List.find?_eq_none.1 hc x hx)
  have hfind2c :
      ((s.carts ++ [({ _id := s.nextId, userId := u, cartItems := [s.nextId + 1] } : CartDoc)]).find?
        (fun x => x.userId == u)) =
        some { _id := s.nextId, userId := u, cartItems := [s.nextId + 1] } := by
    rw [find?_append_left_none _ _ _ hprefC]
    rw [List.find?_cons_of_pos _ (by simp)]
  have hinvS : (s.inventories.find? (fun x => x._id == invId)).isSome = true := by
    rw [hinv]; rfl
  have hfind2e :
      ((s.cartItems ++ [mkLineItem (s.nextId + 1) s.nextId invId inv.itemName q1]).find?
        (fun ci => ci.cart ==
            ({ _id := s.nextId, userId := u, cartItems := [s.nextId + 1] } : CartDoc)._id &&
          isVal ci.item_id invId)) =
        some (mkLineItem (s.nextId + 1) s.nextId invId inv.itemName q1) := by
    rw [find?_append_left_none _ _ _ (fun x hx => by simp [hFresh x hx])]
    rw [List.find?_cons_of_pos _ (by simp [mkLineItem, isVal])]
  have hord : 1 ≤ q1 + q2 := le_trans hq1 (Nat.le_add_right q1 q2)
  have hval2 : validCartItem
      { mkLineItem (s.nextId + 1) s.nextId invId inv.itemName q1 with
        ordered_quantity :=
          (mkLineItem (s.nextId + 1) s.nextId invId inv.itemName q1).ordered_quantity + q2 } = true := by
    simp [validCartItem, mkLineItem, statusEnum, hord]
  have hB := addItems_single_merge
    { inventories := s.inventories,
      carts := s.carts ++ [{ _id := s.nextId, userId := u, cartItems := [s.nextId + 1] }],
      cartItems := s.cartItems ++ [mkLineItem (s.nextId + 1) s.nextId invId inv.itemName q1],
      nextId := s.nextId + 2 }
    u invId q2 { _id := s.nextId, userId := u, cartItems := [s.nextId + 1] }
    (mkLineItem (s.nextId + 1) s.nextId invId inv.itemName q1) hq2 hfind2c hinvS hfind2e hval2
  have hcBmem : ({ _id := s.nextId, userId := u, cartItems := [s.nextId + 1] } : CartDoc) ∈
      s.carts ++ [{ _id := s.nextId, userId := u, cartItems := [s.nextId + 1] }] := by simp
  have hanyB : ((s.carts ++
      [({ _id := s.nextId, userId := u, cartItems := [s.nextId + 1] } : CartDoc)]).any
        (fun x => x._id == s.nextId)) = true :=
    List.any_eq_true.2 ⟨_, hcBmem, by simp⟩
  have hne : ∀ x ∈ s.cartItems, x._id ≠
      ({ mkLineItem (s.nextId + 1) s.nextId invId inv.itemName q1 with
        ordered_quantity :=
          (mkLineItem (s.nextId + 1) s.nextId invId inv.itemName q1).ordered_quantity + q2 } :
            CartItemDoc)._id := by
    intro x hx
    have hlt := hItemLt x hx
    simp only [mkLineItem]
    omega
  have hrepl : replaceCartItem
      (s.cartItems ++ [mkLineItem (s.nextId + 1) s.nextId invId inv.itemName q1])
      { mkLineItem (s.nextId + 1) s.nextId invId inv.itemName q1 with
        ordered_quantity :=
          (mkLineItem (s.nextId + 1) s.nextId invId inv.itemName q1).ordered_quantity + q2 } =
      s.cartItems ++
        [{ mkLineItem (s.nextId + 1) s.nextId invId inv.itemName q1 with
          ordered_quantity :=
            (mkLineItem (s.nextId + 1) s.nextId invId inv.itemName q1).ordered_quantity + q2 }] := by
    rw [replaceCartItem_append, replaceCartItem_eq_self _ _ hne]
    simp [replaceCartItem, mkLineItem]
  have hfilnil : List.filter
      (fun ci => ci.cart ==
          ({ _id := s.nextId, userId := u, cartItems := [s.nextId + 1] } : CartDoc)._id &&
        isVal ci.item_id invId) s.cartItems = [] :=
    List.filter_eq_nil_iff.2 (fun x hx => by simp [hFresh x hx])
  rw [hfullA]
  dsimp only
  rw [hB]
  dsimp only
  refine ⟨rfl, rfl, ?_⟩
  unfold saveCart
  dsimp only
  rw [if_pos hanyB]
  dsimp only
  refine ⟨{ _id := s.nextId, userId := u, cartItems := [s.nextId + 1] },
    List.mem_map.2 ⟨_, hcBmem, by simp⟩, rfl, ?_⟩
  rw [hrepl, List.filter_append, hfilnil]
  rw [List.filter_cons_of_pos (by simp [mkLineItem, isVal])]
  rfl

/-- Claim C1: from any well-formed store whose line items nowhere reference
the catalog item yet, two add-items calls for that catalog item (present in
the catalog) with positive quantities q1 then q2 both answer 200 and leave
exactly one line item in the requester cart referencing it, with requested
quantity q1 + q2: the second add merges instead of creating a duplicate. -/
theorem c1_add_items_accumulates (s : StoreState) (u invId q1 q2 : Nat)
    (hq1 : 1 ≤ q1) (hq2 : 1 ≤ q2) (hWF : WF s)
    (hInv : (s.inventories.find? (fun x => x._id == invId)).isSome = true)
    (hFresh : ∀ ci ∈ s.cartItems, isVal ci.item_id invId = false) :
    (addItems s u [{ item_id := invId, ordered_quantity := q1 }]).1 = 200 ∧
    (addItems (addItems s u [{ item_id := invId, ordered_quantity := q1 }]).2 u
        [{ item_id := invId, ordered_quantity := q2 }]).1 = 200 ∧
    ∃ c ∈ (addItems (addItems s u [{ item_id := invId, ordered_quantity := q1 }]).2 u
        [{ item_id := invId, ordered_quantity := q2 }]).2.carts,
      c.userId = u ∧
      ((addItems (addItems s u [{ item_id := invId, ordered_quantity := q1 }]).2 u
          [{ item_id := invId, ordered_quantity := q2 }]).2.cartItems.filter
          (fun ci => ci.cart == c._id && isVal ci.item_id invId)).map
        (fun ci => ci.ordered_quantity) = [q1 + q2] := by
  obtain ⟨inv, hinv⟩ := Option.isSome_iff_exists.1 hInv
  cases hc : s.carts.find? (fun x => x.userId == u) with
  | some c0 =>
    exact c1_case_existing s u invId q1 q2 c0 inv hq1 hq2 hWF.1 hWF.2.2.2.2.1 hc hinv hFresh
  | none =>
    exact c1_case_new s u invId q1 q2 inv hq1 hq2 hWF.2.2.2.1 hWF.2.2.2.2.1 hc hinv hFresh

/-- Witness for C1: adding catalog item 1 with quantities 2 then 3 to the cart
of requester 7 in the one-item store yields exactly one line item of quantity
5 for that catalog item. -/
theorem c1_witness :
    (addItems oneInvState 7 [{ item_id := 1, ordered_quantity := 2 }]).1 = 200 ∧
    (addItems (addItems oneInvState 7 [{ item_id := 1, ordered_quantity := 2 }]).2 7
        [{ item_id := 1, ordered_quantity := 3 }]).1 = 200 ∧
    ∃ c ∈ (addItems (addItems oneInvState 7 [{ item_id := 1, ordered_quantity := 2 }]).2 7
        [{ item_id := 1, ordered_quantity := 3 }]).2.carts,
      c.userId = 7 ∧
      ((addItems (addItems oneInvState 7 [{ item_id := 1, ordered_quantity := 2 }]).2 7
          [{ item_id := 1, ordered_quantity := 3 }]).2.cartItems.filter
          (fun ci => ci.cart == c._id && isVal ci.item_id 1)).map
        (fun ci => ci.ordered_quantity) = [2 + 3] :=
  c1_add_items_accumulates oneInvState 7 1 2 3 (by decide) (by decide)
    (by unfold WF; decide) (by decide) (by decide)
